import Mathlib

/-!
# Verification of the stage-catalog SQL generator

A shallow embedding of `generate_stages.py`: a script that expands a
hand-authored catalog of fantasy-mode stages (stage number, display name,
description, allowed chord symbols) into one bulk `INSERT INTO fantasy_stages`
statement printed to standard output.

The embedding mirrors the script line by line:

* `bgm_urls`, `stages_data` — the compiled-in constants, transcribed verbatim;
* `create_chord_objects` — the chord voicing expander (lines 15–16);
* `row_text` — the f-string of line 93 building one value-group;
* `bgm_url_at` — line 91, `bgm_urls[i % len(bgm_urls)]`, modelled as an
  `Option` so that the `ZeroDivisionError` on an empty pool becomes `none`;
* `values_from` / `values_of` — the `enumerate` loop of lines 86–94;
* `output_of` — the sequence of `print` calls (lines 78–97), each print
  contributing its text plus a newline.

On top of the embedding, `splitStep`/`scanValue`/`splitFields` give a small
quote- and parenthesis-aware lexer used to talk about the positional fields
of an emitted value-group, and `ccount`/`apos` count characters for the
quote-balance and terminator analysis.
-/

set_option maxRecDepth 100000

/-- One authored catalog entry: `(stage_number, name, description, chords)`
as in the tuples of `stages_data` (lines 19–75 of the script). -/
structure StageDef where
  stage_number : String
  name : String
  description : String
  chords : List String
  deriving DecidableEq, Repr

/-- The fixed BGM resource pool (lines 7–12). -/
def bgm_urls : List String := [
  "https://jazzify-cdn.com/fantasy-bgm/f1394110-0bc3-4e6b-86fe-70d2b5795a42.mp3",
  "https://jazzify-cdn.com/fantasy-bgm/9afb5319-7ebe-4e01-8bf2-4509b5c20de7.mp3",
  "https://jazzify-cdn.com/fantasy-bgm/26de516b-a972-4991-9110-37d10d9bae65.mp3",
  "https://jazzify-cdn.com/fantasy-bgm/717e9562-9612-46b0-8358-e170f5a5530d.mp3"
]

/-- The authored stage catalog (lines 19–75), transcribed verbatim. -/
def stages_data : List StageDef := [
  ⟨"6-5", "オーロラの観測所", "その他の3和音 dim", ["Cdim", "Ddim", "Edim", "Fdim", "Gdim", "Adim", "Bdim", "C#dim", "D#dim", "F#dim", "G#dim", "A#dim"]⟩,
  ⟨"6-6", "樹氷の森", "その他の3和音 aug", ["Caug", "Daug", "Eaug", "Faug", "Gaug", "Aaug", "Baug", "C#aug", "D#aug", "F#aug", "G#aug", "A#aug"]⟩,
  ⟨"6-7", "雪山の秘湯", "その他の3和音 dimとaug曲", ["Cdim", "Ddim", "Edim", "Fdim", "Gdim", "Adim", "Bdim", "C#dim", "D#dim", "F#dim", "G#dim", "A#dim", "Caug", "Daug", "Eaug", "Faug", "Gaug", "Aaug", "Baug", "C#aug", "D#aug", "F#aug", "G#aug", "A#aug"]⟩,
  ⟨"6-8", "氷晶の城塞", "その他の3和音 まとめ曲1", ["Csus4", "Dsus4", "Esus4", "Fsus4", "Gsus4", "Asus4", "Bsus4", "C#sus4", "D#sus4", "F#sus4", "G#sus4", "A#sus4", "Cdim", "Ddim", "Edim", "Fdim", "Gdim", "Adim", "Bdim", "C#dim", "D#dim", "F#dim", "G#dim", "A#dim", "Caug", "Daug", "Eaug", "Faug", "Gaug", "Aaug", "Baug", "C#aug", "D#aug", "F#aug", "G#aug", "A#aug"]⟩,
  ⟨"6-9", "極寒の牢獄", "その他の3和音 まとめ曲2", ["Csus4", "Dsus4", "Esus4", "Fsus4", "Gsus4", "Asus4", "Bsus4", "C#sus4", "D#sus4", "F#sus4", "G#sus4", "A#sus4", "Cdim", "Ddim", "Edim", "Fdim", "Gdim", "Adim", "Bdim", "C#dim", "D#dim", "F#dim", "G#dim", "A#dim", "Caug", "Daug", "Eaug", "Faug", "Gaug", "Aaug", "Baug", "C#aug", "D#aug", "F#aug", "G#aug", "A#aug"]⟩,
  ⟨"6-10", "銀世界の雪原", "メジャーとマイナートライアド(全てのルート、single)", ["C", "D", "E", "F", "G", "A", "B", "C#", "D#", "F#", "G#", "A#", "Cm", "Dm", "Em", "Fm", "Gm", "Am", "Bm", "C#m", "D#m", "F#m", "G#m", "A#m"]⟩,
  ⟨"7-1", "火口への道", "度数 2度と3度", ["C", "D", "E", "F", "G", "A", "B", "C#", "D#", "F#", "G#", "A#"]⟩,
  ⟨"7-2", "溶岩の回廊", "度数 4度と5度", ["C", "F", "G", "D", "A", "E", "B", "F#", "C#", "G#", "D#", "A#"]⟩,
  ⟨"7-3", "炎の鍛冶場", "度数 6度と7度", ["C", "A", "B", "D", "E", "F", "G", "C#", "D#", "F#", "G#", "A#"]⟩,
  ⟨"7-4", "焦土の荒野", "度数 上まとめ1", ["C", "D", "E", "F", "G", "A", "B", "C#", "D#", "F#", "G#", "A#"]⟩,
  ⟨"7-5", "噴煙の地帯", "度数 上まとめ2", ["C#", "D#", "F#", "G#", "A#"]⟩,
  ⟨"7-6", "不死鳥の棲家", "度数 2度と3度下", ["C", "D", "E", "F", "G", "A", "B", "C#", "D#", "F#", "G#", "A#"]⟩,
  ⟨"7-7", "灰の降る街", "度数 4度と5度下", ["C", "F", "G", "D", "A", "E", "B", "F#", "C#", "G#", "D#", "A#"]⟩,
  ⟨"7-8", "獄炎の神殿", "度数 6度と7度下", ["C", "A", "B", "D", "E", "F", "G", "C#", "D#", "F#", "G#", "A#"]⟩,
  ⟨"7-9", "マグマ溜まり", "度数 下まとめ", ["C", "F", "G", "D", "A", "E", "B", "F#", "C#", "G#", "D#", "A#"]⟩,
  ⟨"7-10", "煉獄の門", "度数 上下MIX", ["C", "D", "E", "F", "G", "A", "B", "C#", "D#", "F#", "G#", "A#"]⟩,
  ⟨"8-1", "天空の庭園", "メジャースケール、ナチュラルマイナースケール C.F.Gのみ、single", ["C", "F", "G", "Cm", "Fm", "Gm"]⟩,
  ⟨"8-2", "浮遊大陸の縁", "メジャースケール、ナチュラルマイナースケール D.A.E.Bのみ、single", ["D", "A", "E", "B", "Dm", "Am", "Em", "Bm"]⟩,
  ⟨"8-3", "歯車の時計塔", "メジャースケール、ナチュラルマイナースケール ♭系のみ、single", ["Db", "Eb", "Gb", "Ab", "Bb", "Dbm", "Ebm", "Gbm", "Abm", "Bbm"]⟩,
  ⟨"8-4", "魔導研究所", "メジャースケール、ナチュラルマイナースケール シャープ系のみ、single", ["C#", "D#", "F#", "G#", "A#", "C#m", "D#m", "F#m", "G#m", "A#m"]⟩,
  ⟨"8-5", "雲海の上", "メジャースケール、ナチュラルマイナースケール まとめ(全てのメジャートライアド、マイナートライアド)、single", ["C", "D", "E", "F", "G", "A", "B", "C#", "D#", "F#", "G#", "A#", "Db", "Eb", "Gb", "Ab", "Bb", "Cm", "Dm", "Em", "Fm", "Gm", "Am", "Bm", "C#m", "D#m", "F#m", "G#m", "A#m", "Dbm", "Ebm", "Gbm", "Abm", "Bbm"]⟩,
  ⟨"8-6", "雷鳴の平原", "メジャースケール、ナチュラルマイナースケール Am.Dm.Emのみ、single", ["Am", "Dm", "Em"]⟩,
  ⟨"8-7", "星詠みの台座", "メジャースケール、ナチュラルマイナースケール Cm.Fm.Gmのみ、single", ["Cm", "Fm", "Gm"]⟩,
  ⟨"8-8", "飛空艇ドック", "メジャースケール、ナチュラルマイナースケール Bm.Bbm,F#mのみ、single", ["Bm", "Bbm", "F#m"]⟩,
  ⟨"8-9", "虹の架け橋", "メジャースケール、ナチュラルマイナースケール 黒鍵だけ(#系と♭系全て)、single", ["C#", "D#", "F#", "G#", "A#", "Db", "Eb", "Gb", "Ab", "Bb", "C#m", "D#m", "F#m", "G#m", "A#m", "Dbm", "Ebm", "Gbm", "Abm", "Bbm"]⟩,
  ⟨"8-10", "風の通り道", "メジャースケール、ナチュラルマイナースケール まとめ(全てのメジャートライアド、マイナートライアド)、single", ["C", "D", "E", "F", "G", "A", "B", "C#", "D#", "F#", "G#", "A#", "Db", "Eb", "Gb", "Ab", "Bb", "Cm", "Dm", "Em", "Fm", "Gm", "Am", "Bm", "C#m", "D#m", "F#m", "G#m", "A#m", "Dbm", "Ebm", "Gbm", "Abm", "Bbm"]⟩,
  ⟨"9-1", "忘却の墓地", "4和音 メジャーセブンス(全てのルート、single)", ["CM7", "DM7", "EM7", "FM7", "GM7", "AM7", "BM7", "C#M7", "D#M7", "F#M7", "G#M7", "A#M7"]⟩,
  ⟨"9-2", "呪われた廃村", "4和音 マイナーセブンス(全てのルート、single)", ["Cm7", "Dm7", "Em7", "Fm7", "Gm7", "Am7", "Bm7", "C#m7", "D#m7", "F#m7", "G#m7", "A#m7"]⟩,
  ⟨"9-3", "幽霊列車の駅", "4和音 セブンス(全てのルート、single)", ["C7", "D7", "E7", "F7", "G7", "A7", "B7", "C#7", "D#7", "F#7", "G#7", "A#7"]⟩,
  ⟨"9-4", "カボチャの畑", "4和音 マイナーセブンスフラットファイブ(全てのルート、single)", ["Cm7b5", "Dm7b5", "Em7b5", "Fm7b5", "Gm7b5", "Am7b5", "Bm7b5", "C#m7b5", "D#m7b5", "F#m7b5", "G#m7b5", "A#m7b5"]⟩,
  ⟨"9-5", "魔女の館", "4和音 メジャーセブンス(全てのルート、timing_random)", ["CM7", "DM7", "EM7", "FM7", "GM7", "AM7", "BM7", "C#M7", "D#M7", "F#M7", "G#M7", "A#M7"]⟩,
  ⟨"9-6", "血の池", "4和音 マイナーセブンス(全てのルート、timing_random)", ["Cm7", "Dm7", "Em7", "Fm7", "Gm7", "Am7", "Bm7", "C#m7", "D#m7", "F#m7", "G#m7", "A#m7"]⟩,
  ⟨"9-7", "枯れ木の森", "4和音 セブンス(全てのルート、timing_random)", ["C7", "D7", "E7", "F7", "G7", "A7", "B7", "C#7", "D#7", "F#7", "G#7", "A#7"]⟩,
  ⟨"9-8", "闇の祭壇", "4和音 マイナーセブンスフラットファイブ(全てのルート、timing_random)", ["Cm7b5", "Dm7b5", "Em7b5", "Fm7b5", "Gm7b5", "Am7b5", "Bm7b5", "C#m7b5", "D#m7b5", "F#m7b5", "G#m7b5", "A#m7b5"]⟩,
  ⟨"9-9", "影の回廊", "4和音 まとめ1.M7 m7 7 m7(b5)(全てのルート、single)", ["CM7", "DM7", "EM7", "FM7", "GM7", "AM7", "BM7", "C#M7", "D#M7", "F#M7", "G#M7", "A#M7", "Cm7", "Dm7", "Em7", "Fm7", "Gm7", "Am7", "Bm7", "C#m7", "D#m7", "F#m7", "G#m7", "A#m7", "C7", "D7", "E7", "F7", "G7", "A7", "B7", "C#7", "D#7", "F#7", "G#7", "A#7", "Cm7b5", "Dm7b5", "Em7b5", "Fm7b5", "Gm7b5", "Am7b5", "Bm7b5", "C#m7b5", "D#m7b5", "F#m7b5", "G#m7b5", "A#m7b5"]⟩,
  ⟨"9-10", "冥府への入り口", "4和音 まとめ2.M7 m7 7 m7(b5)(全てのルート、timing_random)", ["CM7", "DM7", "EM7", "FM7", "GM7", "AM7", "BM7", "C#M7", "D#M7", "F#M7", "G#M7", "A#M7", "Cm7", "Dm7", "Em7", "Fm7", "Gm7", "Am7", "Bm7", "C#m7", "D#m7", "F#m7", "G#m7", "A#m7", "C7", "D7", "E7", "F7", "G7", "A7", "B7", "C#7", "D#7", "F#7", "G#7", "A#7", "Cm7b5", "Dm7b5", "Em7b5", "Fm7b5", "Gm7b5", "Am7b5", "Bm7b5", "C#m7b5", "D#m7b5", "F#m7b5", "G#m7b5", "A#m7b5"]⟩,
  ⟨"10-1", "忘却の墓地", "その他のセブンス マイナーメジャーセブンス(全てのルート、single)", ["Cm/maj7", "Dm/maj7", "Em/maj7", "Fm/maj7", "Gm/maj7", "Am/maj7", "Bm/maj7", "C#m/maj7", "D#m/maj7", "F#m/maj7", "G#m/maj7", "A#m/maj7"]⟩,
  ⟨"10-2", "呪われた廃村", "その他のセブンス オーグメント(全てのルート、single)", ["Caug7", "Daug7", "Eaug7", "Faug7", "Gaug7", "Aaug7", "Baug7", "C#aug7", "D#aug7", "F#aug7", "G#aug7", "A#aug7"]⟩,
  ⟨"10-3", "幽霊列車の駅", "その他のセブンス ディミニッシュ(全てのルート、single)", ["Cdim7", "Ddim7", "Edim7", "Fdim7", "Gdim7", "Adim7", "Bdim7", "C#dim7", "D#dim7", "F#dim7", "G#dim7", "A#dim7"]⟩,
  ⟨"10-4", "カボチャの畑", "その他のセブンス 7Sus4(全てのルート、single)", ["C7sus4", "D7sus4", "E7sus4", "F7sus4", "G7sus4", "A7sus4", "B7sus4", "C#7sus4", "D#7sus4", "F#7sus4", "G#7sus4", "A#7sus4"]⟩,
  ⟨"10-5", "魔女の館", "その他のセブンス マイナーメジャーセブンス(全てのルート、timing_random)", ["Cm/maj7", "Dm/maj7", "Em/maj7", "Fm/maj7", "Gm/maj7", "Am/maj7", "Bm/maj7", "C#m/maj7", "D#m/maj7", "F#m/maj7", "G#m/maj7", "A#m/maj7"]⟩,
  ⟨"10-6", "血の池", "その他のセブンス オーグメント(全てのルート、timing_random)", ["Caug7", "Daug7", "Eaug7", "Faug7", "Gaug7", "Aaug7", "Baug7", "C#aug7", "D#aug7", "F#aug7", "G#aug7", "A#aug7"]⟩,
  ⟨"10-7", "枯れ木の森", "その他のセブンス ディミニッシュ(全てのルート、timing_random)", ["Cdim7", "Ddim7", "Edim7", "Fdim7", "Gdim7", "Adim7", "Bdim7", "C#dim7", "D#dim7", "F#dim7", "G#dim7", "A#dim7"]⟩,
  ⟨"10-8", "闇の祭壇", "その他のセブンス 7Sus4(全てのルート、timing_random)", ["C7sus4", "D7sus4", "E7sus4", "F7sus4", "G7sus4", "A7sus4", "B7sus4", "C#7sus4", "D#7sus4", "F#7sus4", "G#7sus4", "A#7sus4"]⟩,
  ⟨"10-9", "影の回廊", "その他のセブンス まとめ mM7 aug7 dim7 7sus4(全てのルート、timing_random)", ["Cm/maj7", "Dm/maj7", "Em/maj7", "Fm/maj7", "Gm/maj7", "Am/maj7", "Bm/maj7", "C#m/maj7", "D#m/maj7", "F#m/maj7", "G#m/maj7", "A#m/maj7", "Caug7", "Daug7", "Eaug7", "Faug7", "Gaug7", "Aaug7", "Baug7", "C#aug7", "D#aug7", "F#aug7", "G#aug7", "A#aug7", "Cdim7", "Ddim7", "Edim7", "Fdim7", "Gdim7", "Adim7", "Bdim7", "C#dim7", "D#dim7", "F#dim7", "G#dim7", "A#dim7", "C7sus4", "D7sus4", "E7sus4", "F7sus4", "G7sus4", "A7sus4", "B7sus4", "C#7sus4", "D#7sus4", "F#7sus4", "G#7sus4", "A#7sus4"]⟩,
  ⟨"10-10", "冥府への入り口", "4和音総まとめ M7 m7 7 m7(b5) mM7 aug7 dim7 7sus4(全てのルート、timing_random)", ["CM7", "DM7", "EM7", "FM7", "GM7", "AM7", "BM7", "C#M7", "D#M7", "F#M7", "G#M7", "A#M7", "Cm7", "Dm7", "Em7", "Fm7", "Gm7", "Am7", "Bm7", "C#m7", "D#m7", "F#m7", "G#m7", "A#m7", "C7", "D7", "E7", "F7", "G7", "A7", "B7", "C#7", "D#7", "F#7", "G#7", "A#7", "Cm7b5", "Dm7b5", "Em7b5", "Fm7b5", "Gm7b5", "Am7b5", "Bm7b5", "C#m7b5", "D#m7b5", "F#m7b5", "G#m7b5", "A#m7b5", "Cm/maj7", "Dm/maj7", "Em/maj7", "Fm/maj7", "Gm/maj7", "Am/maj7", "Bm/maj7", "C#m/maj7", "D#m/maj7", "F#m/maj7", "G#m/maj7", "A#m/maj7", "Caug7", "Daug7", "Eaug7", "Faug7", "Gaug7", "Aaug7", "Baug7", "C#aug7", "D#aug7", "F#aug7", "G#aug7", "A#aug7", "Cdim7", "Ddim7", "Edim7", "Fdim7", "Gdim7", "Adim7", "Bdim7", "C#dim7", "D#dim7", "F#dim7", "G#dim7", "A#dim7", "C7sus4", "D7sus4", "E7sus4", "F7sus4", "G7sus4", "A7sus4", "B7sus4", "C#7sus4", "D#7sus4", "F#7sus4", "G#7sus4", "A#7sus4"]⟩
]

/-- The f-string inside the comprehension of line 16:
`f"jsonb_build_object('chord', '{chord}', 'octave', 4, 'inversion', 0)"`. -/
def chord_object (chord : String) : String :=
  "jsonb_build_object('chord', '" ++ chord ++ "', 'octave', 4, 'inversion', 0)"

/-- The chord voicing expander (lines 15–16): the list comprehension applying
the f-string of `chord_object` to every chord symbol, in order. -/
def create_chord_objects (chords : List String) : List String :=
  chords.map chord_object

/-- Python's `sep.join(parts)`. -/
def joinSep (sep : String) : List String → String
  | [] => ""
  | [x] => x
  | x :: y :: ys => x ++ sep ++ joinSep sep (y :: ys)

/-- Line 89: `f"jsonb_build_array({', '.join(chord_objects)})"`. -/
def chord_array (chords : List String) : String :=
  "jsonb_build_array(" ++ joinSep ", " (create_chord_objects chords) ++ ")"

/-- Line 91: `bgm_urls[i % len(bgm_urls)]`.  On an empty pool Python raises
`ZeroDivisionError` (`i % 0`); this is modelled as `none` (note that for
`pool = []` we have `pool.get? (i % 0) = none`). -/
def bgm_url_at (pool : List String) (i : Nat) : Option String :=
  pool.get? (i % pool.length)

/-- The f-string of line 93 building one value-group from a catalog entry
and its assigned BGM url. -/
def row_text (s : StageDef) (bgm : String) : String :=
  "('" ++ s.stage_number ++ "', '" ++ s.name ++ "', '" ++ s.description ++
    "', 5, 10, 5.0, 'single', " ++ chord_array s.chords ++ ", '[]'::jsonb, '" ++
    bgm ++ "', false, 1, 5, 1, 1, 1, 'basic', 'fantasy', false, 5)"

/-- The body of one iteration of the loop of lines 87–94: look up the BGM url
for emission index `i` and build the value-group text; `none` when the lookup
fails (empty pool). -/
def value_of (pool : List String) (i : Nat) (s : StageDef) : Option String :=
  (bgm_url_at pool i).map (row_text s)

/-- The `for i, (...) in enumerate(stages_data)` loop (lines 86–94), carrying
the running emission index. -/
def values_from (pool : List String) : Nat → List StageDef → Option (List String)
  | _, [] => some []
  | i, s :: rest => do
    let v ← value_of pool i s
    let vs ← values_from pool (i + 1) rest
    pure (v :: vs)

/-- The full list of value-groups, in catalog order, starting at index 0. -/
def values_of (pool : List String) (stages : List StageDef) : Option (List String) :=
  values_from pool 0 stages

/-- Line 78: the leading SQL comment. -/
def comment_line : String := "-- ファンタジーモードBASICステージ6-10を追加"

/-- Lines 80–83: the four printed column-header lines. -/
def header_cols_1 : String :=
  "  stage_number, name, description, max_hp, question_count, enemy_gauge_seconds,"

/-- Second column-header line (line 81). -/
def header_cols_2 : String :=
  "  mode, allowed_chords, chord_progression, bgm_url, show_guide, enemy_count,"

/-- Third column-header line (line 82). -/
def header_cols_3 : String :=
  "  enemy_hp, min_damage, max_damage, simultaneous_monster_count, stage_tier,"

/-- Fourth column-header line (line 83). -/
def header_cols_4 : String :=
  "  usage_type, is_sheet_music_mode, required_clears_for_next"

/-- The lines printed before the value-groups (lines 78–84), in print order. -/
def preamble : List String := [
  comment_line,
  "INSERT INTO fantasy_stages (",
  header_cols_1,
  header_cols_2,
  header_cols_3,
  header_cols_4,
  ") VALUES"
]

/-- The whole standard-output text of the script (lines 78–97): each `print`
contributes its argument plus a newline; the value-groups are joined with
`",\n"` (line 96) and followed by the final `";"` (line 97).  `none` when the
value loop fails (empty BGM pool). -/
def output_of (pool : List String) (stages : List StageDef) : Option String :=
  (values_of pool stages).map fun vs =>
    String.join (preamble.map fun l => l ++ "\n") ++
      joinSep ",\n" vs ++ "\n" ++ ";" ++ "\n"

/-- One run of the script on its compiled-in constants.  The script reads no
input, flags, environment or files: the entire behaviour is a pure function
of `bgm_urls` and `stages_data`, which is what `run` makes explicit. -/
def run (_u : Unit) : Option String :=
  output_of bgm_urls stages_data


/-! ## Specification-side definitions

The following definitions follow the words of the specification (not the
script) and are compared with the embedding above: `VoicingDescriptor` and
`renderVoicing` spell out §3's structured voicing object, and `rows_from` is
§4.2/§4.4's contract — the ordered list of value-groups where the group at
emission index `i` uses resource `pool[i mod N]`. -/

/-- §3 `VoicingDescriptor`: `{chord, octave, inversion}`. -/
structure VoicingDescriptor where
  chord : String
  octave : Nat
  inversion : Nat
  deriving DecidableEq, Repr

/-- The serialized form of a `VoicingDescriptor` as a `jsonb_build_object`
literal. -/
def renderVoicing (v : VoicingDescriptor) : String :=
  "jsonb_build_object('chord', '" ++ v.chord ++ "', 'octave', " ++
    toString v.octave ++ ", 'inversion', " ++ toString v.inversion ++ ")"

/-- The serialized form of a chord-progression list; the empty list renders
as the empty structured-array literal `'[]'::jsonb` of §3. -/
def progressionSql (l : List String) : String :=
  "'[" ++ joinSep "," l ++ "]'::jsonb"

/-- Specification-side value-group list (§4.2 + §4.4): one group per catalog
entry, in authored order, group `i` using `pool[i % pool.length]`. -/
def rows_from (pool : List String) : Nat → List StageDef → List String
  | _, [] => []
  | i, s :: rest =>
    row_text s ((pool.get? (i % pool.length)).getD "") :: rows_from pool (i + 1) rest

/-- The value-groups the script actually emits (empty if generation fails). -/
def emittedValues : List String :=
  (values_of bgm_urls stages_data).getD []

/-! ## A small lexer for value-groups

To speak about the *positional fields* of an emitted value-group we scan it
with a quote- and parenthesis-aware lexer: single quotes toggle string-literal
state (in which parentheses and commas are inert), parentheses track nesting
depth, and a comma at depth 1 ends a field.  Leading spaces of a field are
skipped.  This is exactly the boundary an SQL consumer uses to count the
positional values of a parenthesized value-group. -/

/-- Lexer state: parenthesis depth, inside-string-literal flag, characters of
the current field (reversed), completed fields (reversed). -/
structure SplitState where
  depth : Nat
  inQuote : Bool
  cur : List Char
  done : List String
  deriving DecidableEq, Repr

/-- One lexer step. -/
def splitStep (st : SplitState) (c : Char) : SplitState :=
  match st with
  | ⟨d, q, cur, done⟩ =>
    if q then
      if c = '\'' then ⟨d, false, c :: cur, done⟩
      else ⟨d, true, c :: cur, done⟩
    else if c = '\'' then ⟨d, true, c :: cur, done⟩
    else if c = '(' then
      if d = 0 then ⟨1, false, cur, done⟩
      else ⟨d + 1, false, c :: cur, done⟩
    else if c = ')' then
      if d = 1 then ⟨0, false, [], String.mk cur.reverse :: done⟩
      else ⟨d - 1, false, c :: cur, done⟩
    else if c = ',' then
      if d = 1 then ⟨d, false, [], String.mk cur.reverse :: done⟩
      else ⟨d, false, c :: cur, done⟩
    else if d = 0 then ⟨d, false, cur, done⟩
    else if c = ' ' then
      if cur = [] then ⟨d, false, cur, done⟩ else ⟨d, false, c :: cur, done⟩
    else ⟨d, false, c :: cur, done⟩

/-- Scan a whole string from the initial state. -/
def scanValue (s : String) : SplitState :=
  s.data.foldl splitStep ⟨0, false, [], []⟩

/-- The positional fields of a value-group, in order. -/
def splitFields (s : String) : List String :=
  (scanValue s).done.reverse

/-- Number of occurrences of character `c` in `s`. -/
def ccount (c : Char) (s : String) : Nat :=
  s.data.count c

/-- Number of apostrophes (single-quote delimiters) in `s`. -/
def apos (s : String) : Nat :=
  ccount '\'' s

/-- Number of columns in the printed header (lines 80–83): the comma-separated
names, 19 commas hence 20 columns. -/
def columnCount : Nat :=
  ccount ',' (header_cols_1 ++ header_cols_2 ++ header_cols_3 ++ header_cols_4) + 1

/-- The expected field decomposition of a value-group built from stage `s`
and url `bgm`: the three authored strings quoted, the constant defaults, the
chord array and the quoted url, in the header's column order. -/
def expectedFields (s : StageDef) (bgm : String) : List String :=
  ["'" ++ s.stage_number ++ "'", "'" ++ s.name ++ "'", "'" ++ s.description ++ "'",
   "5", "10", "5.0", "'single'", chord_array s.chords, "'[]'::jsonb",
   "'" ++ bgm ++ "'", "false", "1", "5", "1", "1", "1", "'basic'", "'fantasy'",
   "false", "5"]

/-! ## Scanning lemmas

Symbolic execution of the lexer over a value-group: scanning a quoted
authored string (no apostrophes inside) is inert, scanning one chord object
or the whole chord array at depth 2 only accumulates its text, and a full
value-group built by `row_text` splits into exactly the twenty expected
fields. -/

theorem scan_quoted (l : List Char) (h : ∀ x ∈ l, x ≠ '\'') (d : Nat)
    (cur : List Char) (done : List String) :
    List.foldl splitStep ⟨d, true, cur, done⟩ l = ⟨d, true, l.reverse ++ cur, done⟩ := by
  induction l generalizing cur with
  | nil => simp
  | cons c t ih =>
    have hc : c ≠ '\'' := h c (List.mem_cons_self c t)
    have ht : ∀ x ∈ t, x ≠ '\'' := fun x hx => h x (List.mem_cons_of_mem c hx)
    rw [List.foldl_cons]
    have hstep : splitStep ⟨d, true, cur, done⟩ c = ⟨d, true, c :: cur, done⟩ := by
      simp [splitStep, hc]
    rw [hstep, ih ht]
    simp

theorem apos_no_quote (s : String) (h : apos s = 0) : ∀ x ∈ s.data, x ≠ '\'' := by
  intro x hx
  intro hxq
  subst hxq
  exact absurd (List.count_eq_zero.mp h) (fun hn => hn hx)

theorem scan_obj (c : String) (h : apos c = 0) (cur : List Char) (done : List String) :
    List.foldl splitStep ⟨2, false, cur, done⟩ (chord_object c).data
      = ⟨2, false, (chord_object c).data.reverse ++ cur, done⟩ := by
  have e1 : ∀ (cur : List Char) (done : List String),
      List.foldl splitStep ⟨2, false, cur, done⟩ "jsonb_build_object('chord', '".data
        = ⟨3, true, "jsonb_build_object('chord', '".data.reverse ++ cur, done⟩ :=
    fun _ _ => rfl
  have e2 : ∀ (cur : List Char) (done : List String),
      List.foldl splitStep ⟨3, true, cur, done⟩ "', 'octave', 4, 'inversion', 0)".data
        = ⟨2, false, "', 'octave', 4, 'inversion', 0)".data.reverse ++ cur, done⟩ :=
    fun _ _ => rfl
  show List.foldl splitStep ⟨2, false, cur, done⟩
      ("jsonb_build_object('chord', '" ++ c ++ "', 'octave', 4, 'inversion', 0)").data = _
  simp only [String.data_append, List.foldl_append]
  rw [e1, scan_quoted c.data (apos_no_quote c h) 3 _ _, e2]
  simp [chord_object, String.data_append, List.reverse_append, List.append_assoc]

theorem scan_objs (chords : List String) (h : ∀ c ∈ chords, apos c = 0)
    (cur : List Char) (done : List String) :
    List.foldl splitStep ⟨2, false, cur, done⟩ (joinSep ", " (create_chord_objects chords)).data
      = ⟨2, false, (joinSep ", " (create_chord_objects chords)).data.reverse ++ cur, done⟩ := by
  induction chords generalizing cur done with
  | nil => simp [create_chord_objects, joinSep]
  | cons c cs ih =>
    cases cs with
    | nil =>
      simp only [create_chord_objects, List.map_cons, List.map_nil, joinSep]
      exact scan_obj c (h c (List.mem_cons_self c [])) cur done
    | cons c2 cs2 =>
      have hc : apos c = 0 := h c (List.mem_cons_self _ _)
      have hrest : ∀ x ∈ c2 :: cs2, apos x = 0 := fun x hx =>
        h x (List.mem_cons_of_mem c hx)
      have esep : ∀ (cur : List Char) (done : List String),
          List.foldl splitStep ⟨2, false, cur, done⟩ ", ".data
            = ⟨2, false, ' ' :: ',' :: cur, done⟩ := fun _ _ => rfl
      have hshape : joinSep ", " (create_chord_objects (c :: c2 :: cs2))
          = chord_object c ++ ", " ++ joinSep ", " (create_chord_objects (c2 :: cs2)) := by
        simp [create_chord_objects, joinSep]
      rw [hshape]
      simp only [String.data_append, List.foldl_append]
      rw [scan_obj c hc, esep, ih hrest]
      have hsep2 : ∀ Y : List Char, ' ' :: ',' :: Y = ", ".data.reverse ++ Y := fun _ => rfl
      rw [hsep2]
      simp [String.data_append, List.reverse_append, List.append_assoc]


theorem splitFields_row (s : StageDef) (bgm : String)
    (h1 : apos s.stage_number = 0) (h2 : apos s.name = 0) (h3 : apos s.description = 0)
    (h4 : ∀ c ∈ s.chords, apos c = 0) (h5 : apos bgm = 0) :
    splitFields (row_text s bgm) = expectedFields s bgm := by
  have e_open : List.foldl splitStep ⟨0, false, [], []⟩ "('".data = ⟨1, true, ['\''], []⟩ := rfl
  have e_sepq : ∀ (cur : List Char) (done : List String),
      List.foldl splitStep ⟨1, true, cur, done⟩ "', '".data
        = ⟨1, true, ['\''], String.mk ('\'' :: cur).reverse :: done⟩ := fun _ _ => rfl
  have e_consts : ∀ (cur : List Char) (done : List String),
      List.foldl splitStep ⟨1, true, cur, done⟩ "', 5, 10, 5.0, 'single', ".data
        = ⟨1, false, [], "'single'" :: "5.0" :: "10" :: "5" ::
            String.mk ('\'' :: cur).reverse :: done⟩ := fun _ _ => rfl
  have e_arr_open : ∀ (done : List String),
      List.foldl splitStep ⟨1, false, [], done⟩ "jsonb_build_array(".data
        = ⟨2, false, "jsonb_build_array(".data.reverse, done⟩ := fun _ => rfl
  have e_arr_close : ∀ (cur : List Char) (done : List String),
      List.foldl splitStep ⟨2, false, cur, done⟩ ")".data
        = ⟨1, false, ')' :: cur, done⟩ := fun _ _ => rfl
  have e_jsonb : ∀ (cur : List Char) (done : List String),
      List.foldl splitStep ⟨1, false, cur, done⟩ ", '[]'::jsonb, '".data
        = ⟨1, true, ['\''], "'[]'::jsonb" :: String.mk cur.reverse :: done⟩ := fun _ _ => rfl
  have e_tail : ∀ (cur : List Char) (done : List String),
      List.foldl splitStep ⟨1, true, cur, done⟩
          "', false, 1, 5, 1, 1, 1, 'basic', 'fantasy', false, 5)".data
        = ⟨0, false, [], "5" :: "false" :: "'fantasy'" :: "'basic'" :: "1" :: "1" :: "1" ::
            "5" :: "1" :: "false" :: String.mk ('\'' :: cur).reverse :: done⟩ := fun _ _ => rfl
  unfold splitFields scanValue row_text chord_array
  simp only [String.data_append, List.foldl_append]
  rw [e_open, scan_quoted s.stage_number.data (apos_no_quote _ h1) 1 _ _, e_sepq,
    scan_quoted s.name.data (apos_no_quote _ h2) 1 _ _, e_sepq,
    scan_quoted s.description.data (apos_no_quote _ h3) 1 _ _, e_consts,
    e_arr_open, scan_objs s.chords h4 _ _, e_arr_close, e_jsonb,
    scan_quoted bgm.data (apos_no_quote _ h5) 1 _ _, e_tail]
  simp [expectedFields, chord_array, String.ext_iff, String.data_append]

/-! ## The value loop and the emitted list -/

theorem values_from_eq (pool : List String) (hpool : pool ≠ []) (stages : List StageDef) :
    ∀ i : Nat, values_from pool i stages = some (rows_from pool i stages) := by
  induction stages with
  | nil => intro i; rfl
  | cons s rest ih =>
    intro i
    have hlt : i % pool.length < pool.length :=
      Nat.mod_lt _ (List.length_pos.mpr hpool)
    have hu : pool.get? (i % pool.length) = some (pool.get ⟨i % pool.length, hlt⟩) :=
      List.get?_eq_get hlt
    rw [List.get?_eq_getElem?] at hu
    simp [values_from, rows_from, value_of, bgm_url_at, hu, ih (i + 1)]

theorem values_of_eq (pool : List String) (hpool : pool ≠ []) (stages : List StageDef) :
    values_of pool stages = some (rows_from pool 0 stages) :=
  values_from_eq pool hpool stages 0

theorem emittedValues_eq : emittedValues = rows_from bgm_urls 0 stages_data := by
  rw [emittedValues, values_of_eq bgm_urls (by decide) stages_data]
  rfl

theorem mem_rows_from (pool : List String) (v : String) (stages : List StageDef) :
    ∀ i : Nat, v ∈ rows_from pool i stages →
      ∃ s : StageDef, ∃ j : Nat,
        s ∈ stages ∧ v = row_text s ((pool.get? (j % pool.length)).getD "") := by
  induction stages with
  | nil => intro i h; simp [rows_from] at h
  | cons s rest ih =>
    intro i hv
    rw [rows_from] at hv
    rcases List.mem_cons.mp hv with h | h
    · exact ⟨s, i, List.mem_cons_self s rest, h⟩
    · obtain ⟨s2, j, hs2, hv2⟩ := ih (i + 1) h
      exact ⟨s2, j, List.mem_cons_of_mem s hs2, hv2⟩

/-! ## Character counting -/

theorem ccount_append (c : Char) (a b : String) :
    ccount c (a ++ b) = ccount c a + ccount c b := by
  simp [ccount, String.data_append, List.count_append]

theorem ccount_row (c : Char) (s : StageDef) (bgm : String) :
    ccount c (row_text s bgm)
      = ccount c s.stage_number + ccount c s.name + ccount c s.description +
        ccount c (chord_array s.chords) + ccount c bgm +
        (ccount c "('" + 2 * ccount c "', '" + ccount c "', 5, 10, 5.0, 'single', " +
          ccount c ", '[]'::jsonb, '" +
          ccount c "', false, 1, 5, 1, 1, 1, 'basic', 'fantasy', false, 5)") := by
  simp [row_text, ccount_append]
  omega

theorem ccount_chord_object (c : Char) (ch : String) :
    ccount c (chord_object ch)
      = ccount c ch + (ccount c "jsonb_build_object('chord', '" +
          ccount c "', 'octave', 4, 'inversion', 0)") := by
  simp [chord_object, ccount_append]
  omega

theorem ccount_joinSep_zero (c : Char) (sep : String) (parts : List String)
    (hsep : ccount c sep = 0) (h : ∀ p ∈ parts, ccount c p = 0) :
    ccount c (joinSep sep parts) = 0 := by
  induction parts with
  | nil => simp [joinSep, ccount]
  | cons p ps ih =>
    cases ps with
    | nil => simpa [joinSep] using h p (List.mem_cons_self p [])
    | cons q qs =>
      have hp : ccount c p = 0 := h p (List.mem_cons_self _ _)
      have hrest : ccount c (joinSep sep (q :: qs)) = 0 :=
        ih (fun x hx => h x (List.mem_cons_of_mem p hx))
      rw [joinSep, ccount_append, ccount_append, hp, hsep, hrest]

theorem ccount_joinSep_even (c : Char) (sep : String) (parts : List String)
    (hsep : ccount c sep % 2 = 0) (h : ∀ p ∈ parts, ccount c p % 2 = 0) :
    ccount c (joinSep sep parts) % 2 = 0 := by
  induction parts with
  | nil => simp [joinSep, ccount]
  | cons p ps ih =>
    cases ps with
    | nil => simpa [joinSep] using h p (List.mem_cons_self p [])
    | cons q qs =>
      have hp : ccount c p % 2 = 0 := h p (List.mem_cons_self _ _)
      have hrest : ccount c (joinSep sep (q :: qs)) % 2 = 0 :=
        ih (fun x hx => h x (List.mem_cons_of_mem p hx))
      rw [joinSep, ccount_append, ccount_append]
      omega

theorem ccount_chord_array_zero (c : Char) (chords : List String)
    (hopen : ccount c "jsonb_build_array(" = 0) (hclose : ccount c ")" = 0)
    (hsep : ccount c ", " = 0)
    (htpl1 : ccount c "jsonb_build_object('chord', '" = 0)
    (htpl2 : ccount c "', 'octave', 4, 'inversion', 0)" = 0)
    (h : ∀ ch ∈ chords, ccount c ch = 0) :
    ccount c (chord_array chords) = 0 := by
  have hparts : ∀ p ∈ create_chord_objects chords, ccount c p = 0 := by
    intro p hp
    obtain ⟨ch, hch, rfl⟩ := List.mem_map.mp hp
    rw [ccount_chord_object, h ch hch, htpl1, htpl2]
  rw [chord_array, ccount_append, ccount_append, hopen, hclose,
    ccount_joinSep_zero c ", " _ hsep hparts]

theorem apos_chord_array_even (chords : List String)
    (h : ∀ ch ∈ chords, apos ch = 0) :
    apos (chord_array chords) % 2 = 0 := by
  have hparts : ∀ p ∈ create_chord_objects chords, ccount '\'' p % 2 = 0 := by
    intro p hp
    obtain ⟨ch, hch, rfl⟩ := List.mem_map.mp hp
    have hz : ccount '\'' ch = 0 := h ch hch
    rw [ccount_chord_object, hz]
    decide
  have hjoin := ccount_joinSep_even '\'' ", " (create_chord_objects chords) (by decide) hparts
  rw [apos, chord_array, ccount_append, ccount_append]
  have hopen : ccount '\'' "jsonb_build_array(" = 0 := by decide
  have hclose : ccount '\'' ")" = 0 := by decide
  omega

/-! ## Quote parity

The lexer toggles its string-literal flag on every apostrophe, so the final
flag is the parity of the apostrophe count: a value-group with an odd number
of apostrophes has unbalanced single-quote delimiters. -/

theorem ccount_pool_getD (pool : List String) (c : Char)
    (h : ∀ u ∈ pool, ccount c u = 0) (j : Nat) :
    ccount c ((pool.get? j).getD "") = 0 := by
  cases hj : pool.get? j with
  | none => simp [ccount]
  | some u =>
    simp only [Option.getD_some]
    exact h u (List.get?_mem hj)

theorem splitStep_inQuote (st : SplitState) (c : Char) :
    (splitStep st c).inQuote = xor st.inQuote (c == '\'') := by
  rcases st with ⟨d, q, cur, done⟩
  cases q <;> by_cases hc : c = '\'' <;>
    simp only [splitStep, hc, if_true, if_false, Bool.xor] <;>
    (try simp) <;>
    (repeat' split) <;> simp_all

theorem scan_inQuote_parity (l : List Char) (st : SplitState) :
    (List.foldl splitStep st l).inQuote
      = xor st.inQuote (decide (l.count '\'' % 2 = 1)) := by
  induction l generalizing st with
  | nil => simp
  | cons c t ih =>
    rw [List.foldl_cons, ih, splitStep_inQuote]
    by_cases hc : c = '\''
    · subst hc
      have hcount : (('\'' : Char) :: t).count '\'' = t.count '\'' + 1 :=
        List.count_cons_self _ _
      rw [hcount]
      rcases Nat.mod_two_eq_zero_or_one (t.count '\'') with h | h <;>
        simp [Nat.add_mod, h, Bool.xor_assoc]
    · have hcount : (c :: t).count '\'' = t.count '\'' := by
        simp [List.count_cons, hc]
      have hbeq : (c == '\'') = false := by
        simp [hc]
      rw [hcount, hbeq]
      simp [Bool.xor_assoc]

/-! ## The authored data is free of delimiter characters -/

theorem stages_clean :
    ∀ s ∈ stages_data, apos s.stage_number = 0 ∧ apos s.name = 0 ∧
      apos s.description = 0 ∧ ∀ c ∈ s.chords, apos c = 0 := by decide

theorem stages_semi_clean :
    ∀ s ∈ stages_data, ccount ';' s.stage_number = 0 ∧ ccount ';' s.name = 0 ∧
      ccount ';' s.description = 0 ∧ ∀ c ∈ s.chords, ccount ';' c = 0 := by decide

theorem urls_clean : ∀ u ∈ bgm_urls, apos u = 0 ∧ ccount ';' u = 0 := by decide

theorem rows_from_length (pool : List String) (stages : List StageDef) :
    ∀ i : Nat, (rows_from pool i stages).length = stages.length := by
  induction stages with
  | nil => intro i; rfl
  | cons s rest ih => intro i; simp [rows_from, ih (i + 1)]

theorem emitted_fields (v : String) (hv : v ∈ emittedValues) :
    ∃ s : StageDef, ∃ bgm : String,
      s ∈ stages_data ∧ v = row_text s bgm ∧ splitFields v = expectedFields s bgm := by
  rw [emittedValues_eq] at hv
  obtain ⟨s, j, hs, rfl⟩ := mem_rows_from bgm_urls _ stages_data 0 hv
  obtain ⟨hsn, hnm, hds, hch⟩ := stages_clean s hs
  have hbgm : apos ((bgm_urls.get? (j % bgm_urls.length)).getD "") = 0 :=
    ccount_pool_getD bgm_urls '\'' (fun u hu => (urls_clean u hu).1) _
  exact ⟨s, _, hs, rfl, splitFields_row s _ hsn hnm hds hch hbgm⟩

theorem row_semi_free (s : StageDef) (bgm : String)
    (h1 : ccount ';' s.stage_number = 0) (h2 : ccount ';' s.name = 0)
    (h3 : ccount ';' s.description = 0) (h4 : ∀ c ∈ s.chords, ccount ';' c = 0)
    (h5 : ccount ';' bgm = 0) :
    ccount ';' (row_text s bgm) = 0 := by
  have harr := ccount_chord_array_zero ';' s.chords (by decide) (by decide) (by decide)
    (by decide) (by decide) h4
  rw [ccount_row, h1, h2, h3, h5, harr]
  decide

theorem rows_semi_free (v : String) (hv : v ∈ rows_from bgm_urls 0 stages_data) :
    ccount ';' v = 0 := by
  obtain ⟨s, j, hs, rfl⟩ := mem_rows_from bgm_urls _ stages_data 0 hv
  obtain ⟨h1, h2, h3, h4⟩ := stages_semi_clean s hs
  exact row_semi_free s _ h1 h2 h3 h4
    (ccount_pool_getD bgm_urls ';' (fun u hu => (urls_clean u hu).2) _)

/-! ## The claims -/

/-- C1: for every ordered list `L` of chord symbols, `create_chord_objects`
produces a list of the same length, in the same order, whose `i`-th entry is
the rendering of the voicing descriptor with chord `L[i]`, octave 4 and
inversion 0. -/
theorem claim_C1 (L : List String) :
    (create_chord_objects L).length = L.length ∧
    ∀ i : Nat, i < L.length →
      (create_chord_objects L).get? i
        = some (renderVoicing { chord := L.getD i "", octave := 4, inversion := 0 }) := by
  constructor
  · simp [create_chord_objects]
  · intro i hi
    have hlt : i < L.length := hi
    have ha : L.get? i = some (L.get ⟨i, hlt⟩) := List.get?_eq_get hlt
    have hmap : (create_chord_objects L).get? i = (L.get? i).map chord_object := by
      simp [create_chord_objects]
    have hgetD : L.getD i "" = L.get ⟨i, hlt⟩ := by
      rw [List.getD_eq_getElem?_getD, ← List.get?_eq_getElem?, ha]
      rfl
    rw [hmap, ha, hgetD]
    refine congrArg some ?_
    apply String.ext
    have h4 : (toString (4 : Nat)).data = ['4'] := rfl
    have h0 : (toString (0 : Nat)).data = ['0'] := rfl
    simp [chord_object, renderVoicing, String.data_append, h4, h0]

theorem claim_C1_witness :
    (create_chord_objects ["Cdim", "Ddim"]).length = 2 ∧
    (create_chord_objects ["Cdim", "Ddim"]).get? 0
      = some (renderVoicing { chord := "Cdim", octave := 4, inversion := 0 }) :=
  ⟨(claim_C1 ["Cdim", "Ddim"]).1, (claim_C1 ["Cdim", "Ddim"]).2 0 (by decide)⟩

/-- C2: for every zero-based emission index `i` and non-empty pool, the
assigned url is `pool[i % pool.length]` (an in-range round-robin lookup), and
the value built at index `i` depends on the stage only through `row_text` —
the resource assignment itself is a pure function of `i` and the pool. -/
theorem claim_C2 (pool : List String) (i : Nat) (s : StageDef) (h : pool ≠ []) :
    bgm_url_at pool i = pool.get? (i % pool.length) ∧
    i % pool.length < pool.length ∧
    (pool.get? (i % pool.length)).isSome = true ∧
    value_of pool i s = (pool.get? (i % pool.length)).map (row_text s) := by
  have hlt : i % pool.length < pool.length := Nat.mod_lt _ (List.length_pos.mpr h)
  refine ⟨rfl, hlt, ?_, rfl⟩
  rw [List.get?_eq_get hlt]
  rfl

theorem claim_C2_witness :
    bgm_url_at bgm_urls 6 = bgm_urls.get? (6 % bgm_urls.length) ∧
    6 % bgm_urls.length < bgm_urls.length ∧
    (bgm_urls.get? (6 % bgm_urls.length)).isSome = true ∧
    value_of bgm_urls 6 ⟨"6-7", "雪山の秘湯", "d", ["Cdim"]⟩
      = (bgm_urls.get? (6 % bgm_urls.length)).map
          (row_text ⟨"6-7", "雪山の秘湯", "d", ["Cdim"]⟩) :=
  claim_C2 bgm_urls 6 ⟨"6-7", "雪山の秘湯", "d", ["Cdim"]⟩ (by decide)

/-- C4: the generator is a pure function of its compiled-in constants: any
two runs return the same output, and the run succeeds. -/
theorem claim_C4 (u v : Unit) : run u = run v ∧ (run u).isSome = true := by
  refine ⟨rfl, ?_⟩
  show (output_of bgm_urls stages_data).isSome = true
  rw [output_of, values_of_eq bgm_urls (by decide) stages_data]
  rfl

/-- C5: on an empty resource pool the value loop fails at once and the whole
generation yields no output: no value-group with a null or arbitrary resource
is ever produced. -/
theorem claim_C5 (stages : List StageDef) (h : stages ≠ []) :
    values_of [] stages = none ∧ output_of [] stages = none := by
  cases stages with
  | nil => exact absurd rfl h
  | cons s rest =>
    have hv : values_of [] (s :: rest) = none := by
      simp [values_of, values_from, value_of, bgm_url_at]
    refine ⟨hv, ?_⟩
    rw [output_of, show values_of [] (s :: rest) = none from hv]
    rfl

theorem claim_C5_witness :
    values_of [] stages_data = none ∧ output_of [] stages_data = none :=
  claim_C5 stages_data (by decide)

/-- C9: in the authored catalog all 46 `stage_number` values are distinct,
even though display names repeat (stages 9-x and 10-x reuse names). -/
theorem claim_C9 :
    stages_data.length = 46 ∧
    (stages_data.map fun s => s.stage_number).Nodup ∧
    ¬ (stages_data.map fun s => s.name).Nodup := by
  refine ⟨by decide, by decide, by decide⟩

/-- C10: the voicing expander is total on the empty list: it returns `[]`,
the chord array renders as the empty structured-array literal, and the value
at any index is still produced. -/
theorem claim_C10 (pool : List String) (i : Nat) (s : StageDef)
    (hpool : pool ≠ []) (hch : s.chords = []) :
    create_chord_objects [] = [] ∧
    chord_array s.chords = "jsonb_build_array()" ∧
    (value_of pool i s).isSome = true := by
  have hlt : i % pool.length < pool.length := Nat.mod_lt _ (List.length_pos.mpr hpool)
  refine ⟨rfl, ?_, ?_⟩
  · rw [hch]
    rfl
  · rw [value_of, bgm_url_at, List.get?_eq_get hlt]
    rfl

theorem claim_C10_witness :
    create_chord_objects [] = [] ∧
    chord_array (StageDef.mk "11-1" "test" "empty" []).chords = "jsonb_build_array()" ∧
    (value_of bgm_urls 0 (StageDef.mk "11-1" "test" "empty" [])).isSome = true :=
  claim_C10 bgm_urls 0 (StageDef.mk "11-1" "test" "empty" []) (by decide) rfl

/-- C3: the printed header has 20 columns, one value-group is emitted per
catalog entry, and every emitted value-group splits into exactly as many
positional fields as the header has columns. -/
theorem claim_C3 :
    columnCount = 20 ∧
    emittedValues.length = stages_data.length ∧
    ∀ v ∈ emittedValues, (splitFields v).length = columnCount := by
  have hcol : columnCount = 20 := by decide
  refine ⟨hcol, ?_, ?_⟩
  · rw [emittedValues_eq, rows_from_length bgm_urls stages_data 0]
  · intro v hv
    obtain ⟨s, bgm, _, _, hf⟩ := emitted_fields v hv
    rw [hf, hcol]
    rfl

theorem claim_C3_witness :
    (splitFields (row_text ⟨"6-5", "オーロラの観測所", "その他の3和音 dim",
        ["Cdim", "Ddim", "Edim", "Fdim", "Gdim", "Adim", "Bdim", "C#dim", "D#dim", "F#dim", "G#dim", "A#dim"]⟩
        ((bgm_urls.get? (0 % bgm_urls.length)).getD ""))).length = columnCount := by
  refine claim_C3.2.2 _ ?_
  rw [emittedValues_eq]
  exact List.mem_cons_self _ _

/-- C8: in every emitted value-group the non-chord numeric, boolean and
mode/tier/usage fields are the batch-wide constants — independent of the
stage's own data — and the chord-progression field is the rendering of the
empty ordered list. -/
theorem claim_C8 :
    progressionSql [] = "'[]'::jsonb" ∧
    ∀ v ∈ emittedValues,
      (splitFields v).getD 3 "" = "5" ∧ (splitFields v).getD 4 "" = "10" ∧
      (splitFields v).getD 5 "" = "5.0" ∧ (splitFields v).getD 6 "" = "'single'" ∧
      (splitFields v).getD 8 "" = progressionSql [] ∧
      (splitFields v).getD 10 "" = "false" ∧ (splitFields v).getD 11 "" = "1" ∧
      (splitFields v).getD 12 "" = "5" ∧ (splitFields v).getD 13 "" = "1" ∧
      (splitFields v).getD 14 "" = "1" ∧ (splitFields v).getD 15 "" = "1" ∧
      (splitFields v).getD 16 "" = "'basic'" ∧ (splitFields v).getD 17 "" = "'fantasy'" ∧
      (splitFields v).getD 18 "" = "false" ∧ (splitFields v).getD 19 "" = "5" := by
  refine ⟨rfl, ?_⟩
  intro v hv
  obtain ⟨s, bgm, _, _, hf⟩ := emitted_fields v hv
  rw [hf]
  exact ⟨rfl, rfl, rfl, rfl, rfl, rfl, rfl, rfl, rfl, rfl, rfl, rfl, rfl, rfl, rfl⟩

theorem claim_C8_witness :
    (splitFields (row_text ⟨"6-5", "オーロラの観測所", "その他の3和音 dim",
        ["Cdim", "Ddim", "Edim", "Fdim", "Gdim", "Adim", "Bdim", "C#dim", "D#dim", "F#dim", "G#dim", "A#dim"]⟩
        ((bgm_urls.get? (0 % bgm_urls.length)).getD ""))).getD 6 "" = "'single'" := by
  refine (claim_C8.2 _ ?_).2.2.2.1
  rw [emittedValues_eq]
  exact List.mem_cons_self _ _

/-- C7 counterexample: a stage whose name contains apostrophes (`it''s`,
a pre-doubled pair) yields a value-group whose quote delimiters are
balanced and which still splits into 20 fields — it is not syntactically
broken, refuting the claim for arbitrary apostrophe-containing names. -/
theorem claim_C7_counterexample :
    0 < apos "it''s" ∧
    (scanValue (row_text ⟨"6-5", "it''s", "desc", ["C"]⟩
        "https://jazzify-cdn.com/fantasy-bgm/f1394110-0bc3-4e6b-86fe-70d2b5795a42.mp3")).inQuote
      = false ∧
    (scanValue (row_text ⟨"6-5", "it''s", "desc", ["C"]⟩
        "https://jazzify-cdn.com/fantasy-bgm/f1394110-0bc3-4e6b-86fe-70d2b5795a42.mp3")).depth
      = 0 ∧
    (splitFields (row_text ⟨"6-5", "it''s", "desc", ["C"]⟩
        "https://jazzify-cdn.com/fantasy-bgm/f1394110-0bc3-4e6b-86fe-70d2b5795a42.mp3")).length
      = 20 := by
  refine ⟨by decide, by decide, by decide, by decide⟩

/-- C7 amended: a stage name with an odd number of apostrophes (in
particular exactly one) while the other interpolated strings contain none
leaves the value-group's single-quote delimiters unbalanced. -/
theorem claim_C7_amended (s : StageDef) (bgm : String)
    (hn : apos s.name % 2 = 1) (h1 : apos s.stage_number = 0)
    (h2 : apos s.description = 0) (h3 : ∀ c ∈ s.chords, apos c = 0)
    (h4 : apos bgm = 0) :
    (scanValue (row_text s bgm)).inQuote = true := by
  rw [scanValue, scan_inQuote_parity]
  simp only [Bool.false_xor, decide_eq_true_eq]
  have hr : (row_text s bgm).data.count '\'' = ccount '\'' (row_text s bgm) := rfl
  rw [hr, ccount_row]
  have harr : ccount '\'' (chord_array s.chords) % 2 = 0 := apos_chord_array_even s.chords h3
  have hn2 : ccount '\'' s.name % 2 = 1 := hn
  have h12 : ccount '\'' s.stage_number = 0 := h1
  have h22 : ccount '\'' s.description = 0 := h2
  have h42 : ccount '\'' bgm = 0 := h4
  have e1 : ccount '\'' "('" = 1 := by decide
  have e2 : ccount '\'' "', '" = 2 := by decide
  have e3 : ccount '\'' "', 5, 10, 5.0, 'single', " = 3 := by decide
  have e4 : ccount '\'' ", '[]'::jsonb, '" = 3 := by decide
  have e5 : ccount '\'' "', false, 1, 5, 1, 1, 1, 'basic', 'fantasy', false, 5)" = 5 := by decide
  omega

theorem claim_C7_witness :
    (scanValue (row_text ⟨"11-1", "d'oro", "d", ["C"]⟩ "u")).inQuote = true :=
  claim_C7_amended ⟨"11-1", "d'oro", "d", ["C"]⟩ "u" (by decide) (by decide) (by decide)
    (by decide) (by decide)

/-- C6 counterexample: the generator's standard output does not begin with
`INSERT INTO` — it begins with the two characters `--` of a SQL comment line
— so the entire output is not a single statement of the claimed form. -/
theorem claim_C6_counterexample :
    ((output_of bgm_urls stages_data).getD "").data.take 2 = ['-', '-'] ∧
    ((output_of bgm_urls stages_data).getD "").data.take 11 ≠ "INSERT INTO".data := by
  refine ⟨by decide, by decide⟩

/-- C6 amended: the output is `some` of: the comment line and the header
lines of `preamble` (each followed by a newline, the `INSERT INTO
fantasy_stages` header among them), then the value-groups in the catalog's
authored order joined by `",\n"`, then a final line holding the single `;`
closing marker; the whole output contains exactly one `;`. -/
theorem claim_C6_amended :
    output_of bgm_urls stages_data
      = some (String.join (preamble.map fun l => l ++ "\n") ++
          joinSep ",\n" (rows_from bgm_urls 0 stages_data) ++ "\n" ++ ";" ++ "\n") ∧
    ccount ';' ((output_of bgm_urls stages_data).getD "") = 1 := by
  have hv := values_of_eq bgm_urls (by decide) stages_data
  have hout : output_of bgm_urls stages_data
      = some (String.join (preamble.map fun l => l ++ "\n") ++
          joinSep ",\n" (rows_from bgm_urls 0 stages_data) ++ "\n" ++ ";" ++ "\n") := by
    rw [output_of, hv]
    rfl
  refine ⟨hout, ?_⟩
  rw [hout]
  show ccount ';' (String.join (preamble.map fun l => l ++ "\n") ++
      joinSep ",\n" (rows_from bgm_urls 0 stages_data) ++ "\n" ++ ";" ++ "\n") = 1
  rw [ccount_append, ccount_append, ccount_append, ccount_append]
  have h1 : ccount ';' (String.join (preamble.map fun l => l ++ "\n")) = 0 := by decide
  have h2 : ccount ';' (joinSep ",\n" (rows_from bgm_urls 0 stages_data)) = 0 :=
    ccount_joinSep_zero ';' ",\n" _ (by decide) (fun v hvv => rows_semi_free v hvv)
  have h3 : ccount ';' "\n" = 0 := by decide
  have h4 : ccount ';' ";" = 1 := by decide
  omega
